import Mathlib

/-!
Verification of the suggestion apply/reconcile subsystem of the sow_editor
application (pipet_voicebot repository).

The embedding covers, translated from the source:
- the Slate document-model adapter exposed by `EditorContext`
  (`insertText`, `replaceSelection`, `insertAtEnd`, `applySuggestion`,
  `undoLastChange`), bundled in `src/services/bedrockService.js`;
- the zustand store `useSOWStore` bundled in
  `src/components/Toolbar.js` (`addChatMessage`, `setClaudeTyping`,
  `setPendingSuggestion`, `acceptSuggestion`, `rejectSuggestion`,
  `suggestionHistory`);
- the ChatPanel flow in `src/unnamed/part_004` (`handleSendMessage`,
  the response classification, and the `InlineSuggestionActions`
  accept/reject handlers).

The underlying Slate editor is an external collaborator (not part of the
repository); it is modelled as a text document with an optional selection
and a snapshot-based undo history: `editor.insertText` replaces the current
selection (a no-op when there is no selection, as in Slate) and records
exactly one undo entry, `editor.select` moves the selection without touching
the history, and `editor.undo` restores the most recent snapshot.
slate-history's operation-merging heuristics are not modelled; each
insertText call records its own history entry, matching the adapter's
per-apply granularity.  `JSON.parse` (a platform builtin wrapped in
try/catch by the source) is modelled by the total function `parseJson`
returning `Option Json`.
-/

namespace SowEditor

/-- JSON values, the result type of the modelled `JSON.parse`. -/
inductive Json where
  | null
  | bool (b : Bool)
  | num (n : Int)
  | str (s : String)
  | arr (elems : List Json)
  | obj (fields : List (String × Json))

/-- JSON whitespace. -/
def isWs (c : Char) : Bool :=
  c = ' ' || c = '\n' || c = '\t' || c = '\r'

/-- Drop leading JSON whitespace. -/
def skipWs (cs : List Char) : List Char :=
  cs.dropWhile isWs

/-- Scan the body of a JSON string literal after the opening quote,
returning the decoded string and the remaining input. -/
def scanStr : List Char → List Char → Option (String × List Char)
  | acc, '"' :: rest => some (String.mk acc.reverse, rest)
  | acc, '\\' :: c :: rest =>
    match c with
    | '"' => scanStr ('"' :: acc) rest
    | '\\' => scanStr ('\\' :: acc) rest
    | '/' => scanStr ('/' :: acc) rest
    | 'n' => scanStr ('\n' :: acc) rest
    | 't' => scanStr ('\t' :: acc) rest
    | 'r' => scanStr ('\r' :: acc) rest
    | _ => none
  | acc, c :: rest => scanStr (c :: acc) rest
  | _, [] => none

/-- Scan a JSON integer literal (optional minus sign, then digits).
Fractional and exponent forms are not modelled; none of the payloads this
application exchanges use them. -/
def scanNum (cs : List Char) : Option (Json × List Char) :=
  let (neg, cs1) : Bool × List Char :=
    match cs with
    | '-' :: r => (true, r)
    | _ => (false, cs)
  let ds := cs1.takeWhile Char.isDigit
  let rest := cs1.dropWhile Char.isDigit
  if ds.isEmpty then none
  else
    let n : Nat := ds.foldl (fun a c => a * 10 + (c.toNat - 48)) 0
    some (Json.num (if neg then -(n : Int) else (n : Int)), rest)

mutual

/-- Fuel-bounded recursive-descent parse of one JSON value. -/
def parseVal : Nat → List Char → Option (Json × List Char)
  | 0, _ => none
  | Nat.succ fuel, cs =>
    match skipWs cs with
    | '"' :: rest => (scanStr [] rest).map fun p => (Json.str p.1, p.2)
    | '\x7b' :: rest => parseObjBody fuel rest []
    | '[' :: rest => parseArrBody fuel rest []
    | 't' :: 'r' :: 'u' :: 'e' :: rest => some (Json.bool true, rest)
    | 'f' :: 'a' :: 'l' :: 's' :: 'e' :: rest => some (Json.bool false, rest)
    | 'n' :: 'u' :: 'l' :: 'l' :: rest => some (Json.null, rest)
    | other => scanNum other

/-- Parse the members of a JSON object after the opening brace or a comma. -/
def parseObjBody : Nat → List Char → List (String × Json) → Option (Json × List Char)
  | 0, _, _ => none
  | Nat.succ fuel, cs, acc =>
    match skipWs cs with
    | '\x7d' :: rest =>
      match acc with
      | [] => some (Json.obj [], rest)
      | _ => none
    | '"' :: rest =>
      match scanStr [] rest with
      | none => none
      | some (k, rest2) =>
        match skipWs rest2 with
        | ':' :: rest3 =>
          match parseVal fuel rest3 with
          | none => none
          | some (v, rest4) =>
            match skipWs rest4 with
            | ',' :: rest5 => parseObjBody fuel rest5 ((k, v) :: acc)
            | '\x7d' :: rest5 => some (Json.obj ((k, v) :: acc).reverse, rest5)
            | _ => none
        | _ => none
    | _ => none

/-- Parse the elements of a JSON array after the opening bracket or a comma. -/
def parseArrBody : Nat → List Char → List Json → Option (Json × List Char)
  | 0, _, _ => none
  | Nat.succ fuel, cs, acc =>
    match skipWs cs with
    | ']' :: rest =>
      match acc with
      | [] => some (Json.arr [], rest)
      | _ => none
    | other =>
      match parseVal fuel other with
      | none => none
      | some (v, rest) =>
        match skipWs rest with
        | ',' :: rest2 => parseArrBody fuel rest2 (v :: acc)
        | ']' :: rest2 => some (Json.arr (v :: acc).reverse, rest2)
        | _ => none

end

/-- Model of `JSON.parse(s)` wrapped in try/catch: total, returning `none`
where the builtin would throw (the catch branch of `handleSendMessage`
sets `parsedResponse = null`). -/
def parseJson (s : String) : Option Json :=
  match parseVal (2 * s.length + 2) s.data with
  | some (j, rest) => if skipWs rest = [] then some j else none
  | none => none

/-- JavaScript property access `j[key]` on a parsed JSON value: `none`
models `undefined`.  Later duplicate keys win, as in `JSON.parse`. -/
def getField (j : Json) (key : String) : Option Json :=
  match j with
  | Json.obj kvs => kvs.foldl (fun acc kv => if kv.1 = key then some kv.2 else acc) none
  | _ => none

/-- JavaScript truthiness of a parsed JSON value, for the
`parsedResponse && ...` guard. -/
def jsTruthy : Json → Bool
  | Json.null => false
  | Json.bool b => b
  | Json.num n => decide (n ≠ 0)
  | Json.str s => decide (s ≠ "")
  | Json.arr _ => true
  | Json.obj _ => true

/-- JavaScript string coercion of a possibly-`undefined` value, applied when
a suggestion's `content` reaches the editor's text-insertion primitive.
(`none` is `undefined`; array/object coercions are simplified, no claim
depends on them.) -/
def jsToText : Option Json → List Char
  | some (Json.str s) => s.data
  | some (Json.num n) => (toString n).data
  | some (Json.bool true) => "true".data
  | some (Json.bool false) => "false".data
  | some Json.null => "null".data
  | some (Json.arr _) => []
  | some (Json.obj _) => "[object Object]".data
  | none => "undefined".data

/-- The document model: text content, an optional selection (a collapsed
pair is a caret; `none` means the editor has no selection at all), and the
undo history as snapshots of `(content, selection)` taken before each
recorded mutation. -/
structure Doc where
  content : List Char
  sel : Option (Nat × Nat)
  undos : List (List Char × Option (Nat × Nat))
deriving DecidableEq

/-- Slate `editor.select(target)`: moves the selection; records nothing in
the undo history. -/
def docSelect (r : Option (Nat × Nat)) (d : Doc) : Doc :=
  { d with sel := r }

/-- Slate `editor.insertText(text)`: replaces the current selection with
`t` (an insertion when the selection is collapsed), collapses the selection
to just after the inserted text, and records exactly one undo entry.  With
no selection it is a no-op, as in Slate. -/
def slateInsertText (t : List Char) (d : Doc) : Doc :=
  match d.sel with
  | none => d
  | some (a, b) =>
    { content := d.content.take a ++ t ++ d.content.drop b
      sel := some (a + t.length, a + t.length)
      undos := (d.content, d.sel) :: d.undos }

/-- Slate `editor.undo()`: restores the most recent history snapshot. -/
def slateUndo (d : Doc) : Doc :=
  match d.undos with
  | [] => d
  | (c, s) :: rest => { content := c, sel := s, undos := rest }

/-- EditorContext `insertText`: insert at the current cursor position. -/
def insertText (t : List Char) (d : Doc) : Doc :=
  slateInsertText t d

/-- EditorContext `replaceSelection`: replace the currently selected text
(the source delegates to the same `editorRef.insertText`). -/
def replaceSelection (t : List Char) (d : Doc) : Doc :=
  slateInsertText t d

/-- EditorContext `insertAtEnd`: capture the selection, move to the
end-of-document point, insert a newline-prefixed block, and restore the
captured selection when one existed (`if (selection)` in the source). -/
def insertAtEnd (t : List Char) (d : Doc) : Doc :=
  let selection := d.sel
  let d1 := docSelect (some (d.content.length, d.content.length)) d
  let d2 := slateInsertText ('\n' :: t) d1
  match selection with
  | some s => docSelect (some s) d2
  | none => d2

/-- EditorContext `undoLastChange`: one `editor.undo()` guarded by
`history.undos.length > 0`. -/
def undoLastChange (d : Doc) : Doc :=
  if d.undos.length > 0 then slateUndo d else d

/-- The suggestion record built in `handleSendMessage`: `type` is the
payload's self-declared `action`, `content`/`explanation` are the raw
parsed fields (possibly `undefined`), and `applied` is set at creation.
The `range`/`position` fields checked by `applySuggestion` are never set
by the ChatPanel constructor.  (`originalRequest` and the timestamp fields
carry no behaviour and are omitted.) -/
structure Suggestion where
  id : Nat
  type : Option Json
  content : Option Json
  explanation : Option Json
  applied : Bool
  range : Option (Nat × Nat)
  position : Option (Nat × Nat)

/-- EditorContext `applySuggestion`: switch on the self-declared
`suggestion.type`; `replace` falls back to the current selection when no
explicit range is given, `insert` to the cursor, `append` delegates to
`insertAtEnd`, and any other (or missing) type takes the default branch
inserting at the cursor. -/
def applySuggestion (sug : Suggestion) (d : Doc) : Doc :=
  match sug.type with
  | some (Json.str t) =>
    if t = "replace" then
      match sug.range with
      | some r => slateInsertText (jsToText sug.content) (docSelect (some r) d)
      | none => replaceSelection (jsToText sug.content) d
    else if t = "insert" then
      match sug.position with
      | some p => slateInsertText (jsToText sug.content) (docSelect (some p) d)
      | none => insertText (jsToText sug.content) d
    else if t = "append" then
      insertAtEnd (jsToText sug.content) d
    else
      insertText (jsToText sug.content) d
  | _ => insertText (jsToText sug.content) d

/-- Resolution recorded in a `suggestionHistory` entry. -/
inductive Resolution where
  | accepted
  | rejected
deriving DecidableEq

/-- An entry of the store's `suggestionHistory` (the Ledger):
`{...suggestion, status}`; the timestamp field carries no behaviour and is
omitted. -/
structure HistEntry where
  sug : Suggestion
  status : Resolution

/-- Chat message role. -/
inductive Role where
  | user
  | assistant
deriving DecidableEq

/-- A chat message as built by `addChatMessage` callers: `content` is the
raw value placed in the message (`parsedResponse.content` for proposals, the
response text otherwise). -/
structure Message where
  id : Nat
  role : Role
  content : Option Json
  explanation : Option Json
  suggestion : Option Suggestion
  hasSuggestion : Bool

/-- The `useSOWStore` slice relevant to the suggestion lifecycle.  The
store object literal defines `acceptSuggestion`/`rejectSuggestion` twice;
in JavaScript the later (pendingSuggestion-based) definitions are the
effective ones and are the ones modelled here. -/
structure Store where
  chatMessages : List Message
  isClaudeTyping : Bool
  pendingSuggestion : Option Suggestion
  suggestionHistory : List HistEntry

/-- Store `addChatMessage`. -/
def addChatMessage (m : Message) (st : Store) : Store :=
  { st with chatMessages := st.chatMessages ++ [m] }

/-- Store `setClaudeTyping`. -/
def setClaudeTyping (b : Bool) (st : Store) : Store :=
  { st with isClaudeTyping := b }

/-- Store `setPendingSuggestion`. -/
def setPendingSuggestion (s : Option Suggestion) (st : Store) : Store :=
  { st with pendingSuggestion := s }

/-- Store `acceptSuggestion` (effective definition): when a pending
suggestion exists, append it to `suggestionHistory` with status accepted
and clear the pending slot; otherwise do nothing. -/
def acceptSuggestion (st : Store) : Store :=
  match st.pendingSuggestion with
  | some p =>
    { st with
      suggestionHistory := st.suggestionHistory ++ [⟨p, Resolution.accepted⟩]
      pendingSuggestion := none }
  | none => st

/-- Store `rejectSuggestion` (effective definition): when a pending
suggestion exists, append it to `suggestionHistory` with status rejected
and clear the pending slot; otherwise do nothing. -/
def rejectSuggestion (st : Store) : Store :=
  match st.pendingSuggestion with
  | some p =>
    { st with
      suggestionHistory := st.suggestionHistory ++ [⟨p, Resolution.rejected⟩]
      pendingSuggestion := none }
  | none => st

/-- The `InlineSuggestionActions` component state for one suggestion. -/
inductive UiStatus where
  | pending
  | accepted
  | rejected
deriving DecidableEq

/-- Combined session state: the document, the store, the per-suggestion
component status, and a counter of LLM requests dispatched (instrumenting
the `bedrockService.sendMessage` call site). -/
structure AppState where
  doc : Doc
  store : Store
  status : UiStatus
  requestCount : Nat

/-- `InlineSuggestionActions.handleAccept`: set the component status and
mark accepted in the store; the document is not touched. -/
def handleAccept (s : AppState) : AppState :=
  { s with status := UiStatus.accepted, store := acceptSuggestion s.store }

/-- `InlineSuggestionActions.handleReject`: set the component status, undo
the change that was automatically applied, and mark rejected in the
store. -/
def handleReject (s : AppState) : AppState :=
  { s with
    status := UiStatus.rejected
    doc := undoLastChange s.doc
    store := rejectSuggestion s.store }

/-- An Accept click: `InlineSuggestionActions` renders the action buttons
only while its status is pending (terminal statuses render a badge with no
buttons), so the handler can only fire in the pending state. -/
def clickAccept (s : AppState) : AppState :=
  if s.status = UiStatus.pending then handleAccept s else s

/-- A Reject click, guarded by the same pending-only rendering. -/
def clickReject (s : AppState) : AppState :=
  if s.status = UiStatus.pending then handleReject s else s

/-- Result of classifying one assistant response string. -/
inductive Classified where
  | conversational (raw : String)
  | proposal (action content explanation : Option Json)

/-- JavaScript strict equality `v === 'suggestion'` on a possibly-missing
field value: true exactly for the string "suggestion". -/
def isSuggestionTag : Option Json → Bool
  | some (Json.str s) => s = "suggestion"
  | _ => false

/-- The response classification in `handleSendMessage`: `JSON.parse` in a
try/catch, then the guard `parsedResponse && parsedResponse.type ===
'suggestion'`.  Only the `type` field is inspected. -/
def classify (response : String) : Classified :=
  match parseJson response with
  | none => Classified.conversational response
  | some j =>
    if jsTruthy j && isSuggestionTag (getField j "type") then
      Classified.proposal (getField j "action") (getField j "content") (getField j "explanation")
    else
      Classified.conversational response

/-- Whether a classification is a proposal. -/
def isProposal : Classified → Bool
  | Classified.proposal _ _ _ => true
  | Classified.conversational _ => false

/-- The suggestion object literal built in `handleSendMessage` when the
response is classified as a suggestion (`id: Date.now()` is modelled by
the `now` parameter; `applied: true` at creation). -/
def mkSuggestion (now : Nat) (action content explanation : Option Json) : Suggestion :=
  { id := now
    type := action
    content := content
    explanation := explanation
    applied := true
    range := none
    position := none }

/-- The response-handling tail of `handleSendMessage` (lines 115-152 of
the ChatPanel source): classify, and either apply the suggestion
immediately and attach it to the assistant's message, or add a plain
assistant message carrying the raw text. -/
def processResponse (now : Nat) (response : String) (s : AppState) : AppState :=
  match classify response with
  | Classified.proposal act cont expl =>
    let sug := mkSuggestion now act cont expl
    { s with
      doc := applySuggestion sug s.doc
      store := addChatMessage
        { id := now, role := Role.assistant, content := cont, explanation := expl,
          suggestion := some sug, hasSuggestion := true } s.store }
  | Classified.conversational raw =>
    { s with
      store := addChatMessage
        { id := now, role := Role.assistant, content := some (Json.str raw),
          explanation := none, suggestion := none, hasSuggestion := false } s.store }

/-- JavaScript `String.prototype.trim` on the input value. -/
def jsTrim (cs : List Char) : List Char :=
  ((cs.dropWhile isWs).reverse.dropWhile isWs).reverse

/-- `handleSendMessage`: the guard
`if (!inputValue.trim() || isClaudeTyping) return;`, then add the user
message, set the composing flag, dispatch the LLM request (instrumented by
`requestCount`), process the response, and clear the flag in the `finally`
block.  `response` stands for the awaited `bedrockService.sendMessage`
result. -/
def handleSendMessage (now : Nat) (input : List Char) (response : String)
    (s : AppState) : AppState :=
  if jsTrim input = [] ∨ s.store.isClaudeTyping = true then s
  else
    let s1 : AppState :=
      { s with
        store := setClaudeTyping true (addChatMessage
          { id := now, role := Role.user, content := some (Json.str (String.mk (jsTrim input))),
            explanation := none, suggestion := none, hasSuggestion := false } s.store)
        requestCount := s.requestCount + 1 }
    let s2 := processResponse now response s1
    { s2 with store := setClaudeTyping false s2.store }

/-! Concrete states and payloads used by the witnesses and counterexamples. -/

/-- The empty store (the store's declared initial chat/suggestion state). -/
def store0 : Store := ⟨[], false, none, []⟩

/-- A two-character document with a caret at the start. -/
def doc0 : Doc := ⟨"ab".data, some (0, 0), []⟩

/-- A document with the non-empty selection spanning "el" of "hello". -/
def docHello : Doc := ⟨"hello".data, some (1, 3), []⟩

/-- A replace-suggestion carrying the content "XY". -/
def sugXY : Suggestion :=
  mkSuggestion 7 (some (Json.str "replace")) (some (Json.str "XY")) none

/-- Session state for the C1 witness. -/
def c1st : AppState := ⟨docHello, store0, UiStatus.pending, 0⟩

/-- A suggestion payload for the C3 scenario. -/
def c3resp : String :=
  "\x7b\"type\":\"suggestion\",\"action\":\"insert\",\"content\":\"Q\"\x7d"

/-- Session state before the C3 scenario's send. -/
def c3base : AppState := ⟨doc0, store0, UiStatus.pending, 0⟩

/-- The state the live flow produces for the C3 scenario: a full
`handleSendMessage` run whose response is a proposal.  The suggestion
(id 13) is applied and attached to the assistant's message; note that the
flow leaves `pendingSuggestion` unset — nothing in the repository ever
calls `setPendingSuggestion`. -/
def c3applied : AppState := handleSendMessage 13 "add q".data c3resp c3base

/-- A well-formed suggestion payload (the shape the system prompt asks the
model to emit). -/
def c4resp : String :=
  "\x7b\"type\":\"suggestion\",\"action\":\"insert\",\"content\":\"Hi\"\x7d"

/-- Session state for the C4 counterexample and witness. -/
def c4st : AppState := ⟨doc0, store0, UiStatus.pending, 0⟩

/-- A suggestion payload that carries no `action` field. -/
def c5resp : String := "\x7b\"type\":\"suggestion\",\"content\":\"Hi\"\x7d"

/-- The parse of `c5resp`. -/
def c5json : Json :=
  Json.obj [("type", Json.str "suggestion"), ("content", Json.str "Hi")]

/-- Session state for the C5 counterexample. -/
def c5st : AppState := ⟨doc0, store0, UiStatus.pending, 0⟩

/-- Session state for the C6 witness. -/
def c6st : AppState := ⟨doc0, store0, UiStatus.pending, 0⟩

/-- The empty document with no selection (the C8 scenario). -/
def c8doc : Doc := ⟨[], none, []⟩

/-- A document with a selection, for the restore branch of C8. -/
def c8docB : Doc := ⟨"ab".data, some (0, 1), []⟩

/-- A suggestion payload for the C9 scenario. -/
def c9resp : String :=
  "\x7b\"type\":\"suggestion\",\"action\":\"insert\",\"content\":\"Z\"\x7d"

/-- Session state before the C9 scenario's send. -/
def c9base : AppState := ⟨doc0, store0, UiStatus.pending, 0⟩

/-- The state the live flow produces for the C9 scenario: a full
`handleSendMessage` run whose response is a proposal (id 11), applied
speculatively with one recorded undo entry. -/
def c9applied : AppState := handleSendMessage 11 "add z".data c9resp c9base

/-- The C9 scenario state after the user independently triggers a native
undo: SOWEditor's `handleKeyDown` calls `editor.undo()` directly on
Ctrl+Z, draining the undo history before the Reject click. -/
def c9undone : AppState := { c9applied with doc := slateUndo c9applied.doc }

/-- Session state with the composing flag down, for the C10 witness. -/
def c10st : AppState := ⟨doc0, store0, UiStatus.pending, 0⟩

/-- Session state with the composing flag up, for the C10 witness. -/
def c10stT : AppState := ⟨doc0, ⟨[], true, none, []⟩, UiStatus.pending, 0⟩

/-! Helper lemmas. -/

/-- An insertion through a live selection records exactly one undo entry,
and one `undoLastChange` pops it and restores the pre-insert content. -/
theorem slateInsertText_push_pop (t : List Char) (d : Doc) (p : Nat × Nat)
    (hp : d.sel = some p) :
    (slateInsertText t d).undos.length = d.undos.length + 1 ∧
    (undoLastChange (slateInsertText t d)).content = d.content ∧
    (undoLastChange (slateInsertText t d)).undos = d.undos := by
  obtain ⟨x, y⟩ := p
  simp [slateInsertText, hp, undoLastChange, slateUndo]

/-- Every branch of `applySuggestion`, on a document that has a selection,
records exactly one undo entry, and `undoLastChange` afterwards restores
the pre-apply content and history. -/
theorem apply_then_undo (sug : Suggestion) (d : Doc) (a b : Nat)
    (h : d.sel = some (a, b)) :
    (applySuggestion sug d).undos.length = d.undos.length + 1 ∧
    (undoLastChange (applySuggestion sug d)).content = d.content ∧
    (undoLastChange (applySuggestion sug d)).undos = d.undos := by
  obtain ⟨sid, sty, sco, sex, sap, sra, spo⟩ := sug
  simp only [applySuggestion, insertText, replaceSelection]
  cases sty with
  | none => exact slateInsertText_push_pop _ d (a, b) h
  | some j =>
    cases j with
    | null => exact slateInsertText_push_pop _ d (a, b) h
    | bool v => exact slateInsertText_push_pop _ d (a, b) h
    | num v => exact slateInsertText_push_pop _ d (a, b) h
    | arr v => exact slateInsertText_push_pop _ d (a, b) h
    | obj v => exact slateInsertText_push_pop _ d (a, b) h
    | str t =>
      dsimp only
      by_cases ht1 : t = "replace"
      · simp only [ht1, if_pos rfl]
        cases sra with
        | some r => exact slateInsertText_push_pop _ (docSelect (some r) d) r rfl
        | none => exact slateInsertText_push_pop _ d (a, b) h
      · rw [if_neg ht1]
        by_cases ht2 : t = "insert"
        · simp only [ht2, if_pos rfl]
          cases spo with
          | some r => exact slateInsertText_push_pop _ (docSelect (some r) d) r rfl
          | none => exact slateInsertText_push_pop _ d (a, b) h
        · rw [if_neg ht2]
          by_cases ht3 : t = "append"
          · simp only [ht3, if_pos rfl]
            simp [insertAtEnd, docSelect, slateInsertText, h, undoLastChange, slateUndo]
          · rw [if_neg ht3]
            exact slateInsertText_push_pop _ d (a, b) h

/-- A click handler fires only from the pending state; on a terminal
state the component renders no buttons (accept side). -/
theorem clickAccept_terminal (x : AppState) (hx : x.status ≠ UiStatus.pending) :
    clickAccept x = x := by
  simp [clickAccept, hx]

/-- A click handler fires only from the pending state; on a terminal
state the component renders no buttons (reject side). -/
theorem clickReject_terminal (x : AppState) (hx : x.status ≠ UiStatus.pending) :
    clickReject x = x := by
  simp [clickReject, hx]

/-- Neither branch of the response handling touches `pendingSuggestion`. -/
theorem processResponse_pending (now : Nat) (r : String) (s : AppState) :
    (processResponse now r s).store.pendingSuggestion = s.store.pendingSuggestion := by
  cases hc : classify r with
  | conversational raw => simp [processResponse, hc, addChatMessage]
  | proposal act cont expl => simp [processResponse, hc, addChatMessage]

/-- The whole send flow never sets `pendingSuggestion`: the repository
never calls `setPendingSuggestion` (ChatPanel destructures it but never
invokes it), so the store slot that feeds the effective
`acceptSuggestion`/`rejectSuggestion` stays as it was. -/
theorem handleSendMessage_pending (now : Nat) (input : List Char) (r : String)
    (s : AppState) :
    (handleSendMessage now input r s).store.pendingSuggestion
      = s.store.pendingSuggestion := by
  unfold handleSendMessage
  split
  · rfl
  · simp [setClaudeTyping, addChatMessage, processResponse_pending]

/-! Claim theorems. -/

/-- C1: for an Applied suggestion (the apply happened on a document with a
live selection, so it recorded its mutation), a Reject click performs
exactly one compensating undo — the apply pushed exactly one history
entry and the reject pops exactly one, returning the history to its
pre-apply state — and, with no intervening edit between apply and reject,
the document content afterwards is exactly the pre-apply content. -/
theorem reject_applied_compensates_once (sug : Suggestion) (s : AppState) (a b : Nat)
    (hstatus : s.status = UiStatus.pending) (hsel : s.doc.sel = some (a, b)) :
    (applySuggestion sug s.doc).undos.length = s.doc.undos.length + 1 ∧
    (clickReject { s with doc := applySuggestion sug s.doc }).doc.undos = s.doc.undos ∧
    (clickReject { s with doc := applySuggestion sug s.doc }).doc.content = s.doc.content := by
  obtain ⟨h1, h2, h3⟩ := apply_then_undo sug s.doc a b hsel
  have hcr : (clickReject { s with doc := applySuggestion sug s.doc }).doc
      = undoLastChange (applySuggestion sug s.doc) := by
    simp [clickReject, hstatus, handleReject]
  exact ⟨h1, by rw [hcr]; exact h3, by rw [hcr]; exact h2⟩

/-- Witness for C1 at a concrete state: selection "el" of "hello",
replace-suggestion "XY". -/
theorem reject_applied_compensates_once_witness :
    c1st.status = UiStatus.pending ∧ c1st.doc.sel = some (1, 3) ∧
    ((applySuggestion sugXY c1st.doc).undos.length = c1st.doc.undos.length + 1 ∧
      (clickReject { c1st with doc := applySuggestion sugXY c1st.doc }).doc.undos
        = c1st.doc.undos ∧
      (clickReject { c1st with doc := applySuggestion sugXY c1st.doc }).doc.content
        = c1st.doc.content) :=
  ⟨rfl, rfl, reject_applied_compensates_once sugXY c1st 1 3 rfl rfl⟩

/-- C2: an Accept click performs no document mutation: the document
component of the state is exactly what it was before the click (the
handler only flips the component status and marks the store; the
speculatively applied content stays live and is not applied again). -/
theorem accept_never_mutates_document (s : AppState) :
    (clickAccept s).doc = s.doc := by
  unfold clickAccept handleAccept
  split <;> rfl

/-- C3 counterexample: in the state the live flow actually produces
(`handleSendMessage` on a proposal, suggestion id 13), the first Accept
click appends nothing to the Ledger — `pendingSuggestion` is never set,
so the effective `acceptSuggestion` is a no-op on `suggestionHistory` —
leaving zero resolution entries for the id, not "exactly one" as the
claim states; the second click is still an identity. -/
theorem resolution_never_in_ledger_cex :
    isProposal (classify c3resp) = true ∧
    c3applied.store.pendingSuggestion = none ∧
    (clickAccept c3applied).status = UiStatus.accepted ∧
    ((clickAccept c3applied).store.suggestionHistory.filter
        (fun e => e.sug.id == 13)).length = 0 ∧
    clickAccept (clickAccept c3applied) = clickAccept c3applied ∧
    ((clickAccept (clickAccept c3applied)).store.suggestionHistory.filter
        (fun e => e.sug.id == 13)).length = 0 :=
  ⟨rfl, rfl, rfl, rfl, rfl, rfl⟩

/-- C3 amended: resolving an already-terminal suggestion is an idempotent
no-op success — a second Accept or Reject click (in any combination)
leaves the entire state, document included, unchanged, and no duplicate
record is appended; however, for suggestions created by the live flow the
Ledger holds zero resolution entries for the id (not exactly one), since
the store's accept/reject append only when a `pendingSuggestion` is set
and nothing in the repository ever sets one. -/
theorem terminal_resolution_idempotent_unrecorded (s : AppState) (i : Nat)
    (hstatus : s.status = UiStatus.pending)
    (hpend : s.store.pendingSuggestion = none)
    (hfresh : s.store.suggestionHistory.filter (fun e => e.sug.id == i) = []) :
    clickAccept (clickAccept s) = clickAccept s ∧
    clickReject (clickReject s) = clickReject s ∧
    clickReject (clickAccept s) = clickAccept s ∧
    clickAccept (clickReject s) = clickReject s ∧
    ((clickAccept (clickAccept s)).store.suggestionHistory.filter
        (fun e => e.sug.id == i)).length = 0 ∧
    ((clickReject (clickReject s)).store.suggestionHistory.filter
        (fun e => e.sug.id == i)).length = 0 ∧
    (clickAccept (clickAccept s)).doc = (clickAccept s).doc ∧
    (clickReject (clickReject s)).doc = (clickReject s).doc := by
  have hA : clickAccept s = handleAccept s := by simp [clickAccept, hstatus]
  have hR : clickReject s = handleReject s := by simp [clickReject, hstatus]
  have hAstat : (handleAccept s).status = UiStatus.accepted := rfl
  have hRstat : (handleReject s).status = UiStatus.rejected := rfl
  have h1 : clickAccept (clickAccept s) = clickAccept s := by
    rw [hA]; exact clickAccept_terminal _ (by rw [hAstat]; intro hc; cases hc)
  have h2 : clickReject (clickReject s) = clickReject s := by
    rw [hR]; exact clickReject_terminal _ (by rw [hRstat]; intro hc; cases hc)
  have h3 : clickReject (clickAccept s) = clickAccept s := by
    rw [hA]; exact clickReject_terminal _ (by rw [hAstat]; intro hc; cases hc)
  have h4 : clickAccept (clickReject s) = clickReject s := by
    rw [hR]; exact clickAccept_terminal _ (by rw [hRstat]; intro hc; cases hc)
  have hAcount : ((clickAccept (clickAccept s)).store.suggestionHistory.filter
      (fun e => e.sug.id == i)).length = 0 := by
    rw [h1, hA]
    simp [handleAccept, acceptSuggestion, hpend, hfresh]
  have hRcount : ((clickReject (clickReject s)).store.suggestionHistory.filter
      (fun e => e.sug.id == i)).length = 0 := by
    rw [h2, hR]
    simp [handleReject, rejectSuggestion, hpend, hfresh]
  exact ⟨h1, h2, h3, h4, hAcount, hRcount, congrArg AppState.doc h1, congrArg AppState.doc h2⟩

/-- Witness for C3 amended at the state the live flow produces. -/
theorem terminal_resolution_idempotent_unrecorded_witness :
    c3applied.status = UiStatus.pending ∧
    c3applied.store.pendingSuggestion = none ∧
    c3applied.store.suggestionHistory.filter (fun e => e.sug.id == 13) = [] ∧
    (clickAccept (clickAccept c3applied) = clickAccept c3applied ∧
      clickReject (clickReject c3applied) = clickReject c3applied ∧
      clickReject (clickAccept c3applied) = clickAccept c3applied ∧
      clickAccept (clickReject c3applied) = clickReject c3applied ∧
      ((clickAccept (clickAccept c3applied)).store.suggestionHistory.filter
          (fun e => e.sug.id == 13)).length = 0 ∧
      ((clickReject (clickReject c3applied)).store.suggestionHistory.filter
          (fun e => e.sug.id == 13)).length = 0 ∧
      (clickAccept (clickAccept c3applied)).doc = (clickAccept c3applied).doc ∧
      (clickReject (clickReject c3applied)).doc = (clickReject c3applied).doc) :=
  ⟨rfl, rfl, rfl, terminal_resolution_idempotent_unrecorded c3applied 13 rfl rfl rfl⟩

/-- C4 counterexample: a well-formed suggestion payload is classified as a
proposal and the document is mutated immediately, yet the store's
`suggestionHistory` — the Ledger, the only suggestion-lifecycle store —
receives no entry at apply time (the claim requires a state=Applied entry
at the moment of application). -/
theorem apply_creates_no_ledger_entry_cex :
    isProposal (classify c4resp) = true ∧
    (processResponse 5 c4resp c4st).doc.content = "Hiab".data ∧
    (processResponse 5 c4resp c4st).store.suggestionHistory = [] :=
  ⟨rfl, rfl, rfl⟩

/-- C4 amended: when assistant output is classified as a proposal, the
document is mutated immediately, the suggestion record is created with
`applied = true` and attached to the assistant's message (which therefore
carries the suggestion's id), but no Ledger (`suggestionHistory`) entry is
created at apply time — the history only receives entries on accept or
reject. -/
theorem apply_mutates_and_tags_message
    (now : Nat) (r : String) (s : AppState) (act cont expl : Option Json)
    (h : classify r = Classified.proposal act cont expl) :
    (processResponse now r s).doc = applySuggestion (mkSuggestion now act cont expl) s.doc ∧
    (mkSuggestion now act cont expl).applied = true ∧
    (mkSuggestion now act cont expl).id = now ∧
    (processResponse now r s).store.chatMessages
      = s.store.chatMessages ++
        [{ id := now, role := Role.assistant, content := cont, explanation := expl,
           suggestion := some (mkSuggestion now act cont expl), hasSuggestion := true }] ∧
    (processResponse now r s).store.suggestionHistory = s.store.suggestionHistory := by
  refine ⟨?_, rfl, rfl, ?_, ?_⟩ <;> simp [processResponse, h, addChatMessage]

/-- Witness for C4 amended at the concrete payload `c4resp`. -/
theorem apply_mutates_and_tags_message_witness :
    classify c4resp
      = Classified.proposal (some (Json.str "insert")) (some (Json.str "Hi")) none ∧
    ((processResponse 5 c4resp c4st).doc
        = applySuggestion
            (mkSuggestion 5 (some (Json.str "insert")) (some (Json.str "Hi")) none)
            c4st.doc ∧
      (mkSuggestion 5 (some (Json.str "insert")) (some (Json.str "Hi")) none).applied = true ∧
      (mkSuggestion 5 (some (Json.str "insert")) (some (Json.str "Hi")) none).id = 5 ∧
      (processResponse 5 c4resp c4st).store.chatMessages
        = c4st.store.chatMessages ++
          [{ id := 5, role := Role.assistant, content := some (Json.str "Hi"),
             explanation := none,
             suggestion := some
               (mkSuggestion 5 (some (Json.str "insert")) (some (Json.str "Hi")) none),
             hasSuggestion := true }] ∧
      (processResponse 5 c4resp c4st).store.suggestionHistory
        = c4st.store.suggestionHistory) :=
  ⟨rfl, apply_mutates_and_tags_message 5 c4resp c4st _ _ _ rfl⟩

/-- C5 counterexample: the payload `c5resp` parses but carries no
`action` field, yet it is classified as a proposal (the classifier checks
only `type === 'suggestion'`), and applying it mutates the document —
refuting "a parsed payload missing either field is not classified as a
Proposal (and so triggers no document mutation)". -/
theorem proposal_without_fields_cex :
    classify c5resp = Classified.proposal none (some (Json.str "Hi")) none ∧
    isProposal (classify c5resp) = true ∧
    (processResponse 3 c5resp c5st).doc.content = "Hiab".data :=
  ⟨rfl, rfl, rfl⟩

/-- C5 amended: an assistant output that parses as JSON is classified as a
Proposal iff the parsed value is truthy and its `type` field is the string
"suggestion"; the presence of `action` or `content` is not checked. -/
theorem classification_checks_only_type_tag (r : String) (j : Json)
    (h : parseJson r = some j) :
    isProposal (classify r) = (jsTruthy j && isSuggestionTag (getField j "type")) := by
  have hcl : classify r
      = (if jsTruthy j && isSuggestionTag (getField j "type") then
          Classified.proposal (getField j "action") (getField j "content")
            (getField j "explanation")
        else Classified.conversational r) := by
    unfold classify
    rw [h]
  rw [hcl]
  by_cases hb : (jsTruthy j && isSuggestionTag (getField j "type")) = true
  · rw [if_pos hb, hb]
    rfl
  · rw [if_neg hb]
    simp only [isProposal]
    exact ((Bool.not_eq_true _).mp hb).symm

/-- Witness for C5 amended at the concrete payload `c5resp`. -/
theorem classification_checks_only_type_tag_witness :
    parseJson c5resp = some c5json ∧
    isProposal (classify c5resp) = (jsTruthy c5json && isSuggestionTag (getField c5json "type")) :=
  ⟨rfl, classification_checks_only_type_tag c5resp c5json rfl⟩

/-- C6: an assistant output that fails the JSON parse is classified as
Conversational carrying the raw text (the try/catch makes the
classification total — it cannot throw), no suggestion is created (the
appended message has none attached), the Ledger is untouched and the
document is not mutated. -/
theorem parse_failure_conversational (r : String) (now : Nat) (s : AppState)
    (h : parseJson r = none) :
    classify r = Classified.conversational r ∧
    (processResponse now r s).doc = s.doc ∧
    (processResponse now r s).store.suggestionHistory = s.store.suggestionHistory ∧
    (processResponse now r s).store.chatMessages
      = s.store.chatMessages ++
        [{ id := now, role := Role.assistant, content := some (Json.str r),
           explanation := none, suggestion := none, hasSuggestion := false }] := by
  have hc : classify r = Classified.conversational r := by simp [classify, h]
  refine ⟨hc, ?_, ?_, ?_⟩ <;> simp [processResponse, hc, addChatMessage]

/-- Witness for C6 at the concrete non-JSON output "hello". -/
theorem parse_failure_conversational_witness :
    parseJson "hello" = none ∧
    (classify "hello" = Classified.conversational "hello" ∧
      (processResponse 2 "hello" c6st).doc = c6st.doc ∧
      (processResponse 2 "hello" c6st).store.suggestionHistory
        = c6st.store.suggestionHistory ∧
      (processResponse 2 "hello" c6st).store.chatMessages
        = c6st.store.chatMessages ++
          [{ id := 2, role := Role.assistant, content := some (Json.str "hello"),
             explanation := none, suggestion := none, hasSuggestion := false }]) :=
  ⟨rfl, parse_failure_conversational "hello" 2 c6st rfl⟩

/-- C7: applying a Replace proposal (as built by the ChatPanel, carrying
no explicit range) on a document whose selection is `(a, b)` yields the
selection replaced by the proposal's content exactly once:
with a non-empty selection (`a < b`) the selected text is overwritten,
and with a collapsed caret (`a = b`) the content is inserted at the cursor
position — the explicit fallback. -/
theorem replace_overwrites_selection
    (now : Nat) (ct : String) (expl : Option Json) (d : Doc) (a b : Nat)
    (h : d.sel = some (a, b)) :
    (applySuggestion (mkSuggestion now (some (Json.str "replace"))
        (some (Json.str ct)) expl) d).content
      = d.content.take a ++ ct.data ++ d.content.drop b := by
  simp [applySuggestion, mkSuggestion, replaceSelection, slateInsertText, h, jsToText]

/-- Witness for C7 on the non-empty selection "el" of "hello". -/
theorem replace_overwrites_selection_witness :
    docHello.sel = some (1, 3) ∧
    (applySuggestion (mkSuggestion 7 (some (Json.str "replace"))
        (some (Json.str "XY")) none) docHello).content
      = docHello.content.take 1 ++ "XY".data ++ docHello.content.drop 3 :=
  ⟨rfl, replace_overwrites_selection 7 "XY" none docHello 1 3 rfl⟩

/-- C8 counterexample: appending to the empty document with no prior
selection does insert the newline-separated block, but the selection
afterwards is a collapsed caret after the inserted block — not absent, as
the claim's "no selection afterward" requires. -/
theorem append_leaves_caret_cex :
    (insertAtEnd "# New Section".data c8doc).content = '\n' :: "# New Section".data ∧
    (insertAtEnd "# New Section".data c8doc).sel = some (14, 14) ∧
    (insertAtEnd "# New Section".data c8doc).sel ≠ none :=
  ⟨rfl, rfl, fun hc => Option.noConfusion hc⟩

/-- C8 amended: an Append inserts the content at the end of the document
as a newline-separated block; a selection that existed before the apply is
restored afterwards, and when none existed the selection afterwards is the
collapsed caret at the end of the inserted block (so no non-empty
selection, but not the absence of a selection). -/
theorem append_restores_or_collapses_selection (t : List Char) (d : Doc) :
    (insertAtEnd t d).content = d.content ++ '\n' :: t ∧
    (∀ s0, d.sel = some s0 → (insertAtEnd t d).sel = some s0) ∧
    (d.sel = none →
      (insertAtEnd t d).sel
        = some (d.content.length + (t.length + 1), d.content.length + (t.length + 1))) := by
  refine ⟨?_, ?_, ?_⟩
  · cases hsel : d.sel with
    | none =>
      simp [insertAtEnd, docSelect, slateInsertText, hsel]
    | some s0 =>
      simp [insertAtEnd, docSelect, slateInsertText, hsel]
  · intro s0 hs0
    simp [insertAtEnd, docSelect, slateInsertText, hs0]
  · intro hn
    simp [insertAtEnd, docSelect, slateInsertText, hn]

/-- Witness for C8 amended: the restore branch on a document with a
selection, and the caret branch on the empty selection-less document. -/
theorem append_restores_or_collapses_selection_witness :
    c8docB.sel = some (0, 1) ∧
    (insertAtEnd "x".data c8docB).sel = some (0, 1) ∧
    c8doc.sel = none ∧
    (insertAtEnd "x".data c8doc).sel
      = some (c8doc.content.length + ("x".data.length + 1),
              c8doc.content.length + ("x".data.length + 1)) :=
  ⟨rfl, (append_restores_or_collapses_selection "x".data c8docB).2.1 (0, 1) rfl,
    rfl, (append_restores_or_collapses_selection "x".data c8doc).2.2 rfl⟩

/-- C9 counterexample: in the state the live flow actually produces (a
proposal applied by `handleSendMessage`, then the user's native Ctrl+Z
draining the undo history), the Reject click does not fail and the undo
step leaves the document unchanged — but the rejection is never recorded
in the Ledger: `suggestionHistory` is still empty afterwards, because the
store's `rejectSuggestion` appends only when a `pendingSuggestion` is set
and nothing in the repository ever sets one.  Only the component-local
status records the rejection. -/
theorem reject_not_recorded_in_ledger_cex :
    (c9undone.store.chatMessages.filter (fun m => m.hasSuggestion)).length = 1 ∧
    c9undone.doc.undos = [] ∧
    (clickReject c9undone).doc = c9undone.doc ∧
    (clickReject c9undone).status = UiStatus.rejected ∧
    (clickReject c9undone).store.suggestionHistory = [] :=
  ⟨rfl, rfl, rfl, rfl, rfl⟩

/-- C9 amended: a Reject click on a document whose undo history is empty
does not fail: the compensating undo is silently a no-op (the document is
left exactly unchanged) and the component marks the suggestion rejected;
the store, however, is left completely unchanged — in particular no
Rejected entry reaches the Ledger (`suggestionHistory`), since the
effective `rejectSuggestion` appends only when a `pendingSuggestion` is
set and the live flow never sets one. -/
theorem reject_empty_history_silent_noop (s : AppState)
    (hstatus : s.status = UiStatus.pending)
    (hundo : s.doc.undos = [])
    (hpend : s.store.pendingSuggestion = none) :
    (clickReject s).doc = s.doc ∧
    (clickReject s).status = UiStatus.rejected ∧
    (clickReject s).store = s.store := by
  have h1 : clickReject s = handleReject s := by simp [clickReject, hstatus]
  rw [h1]
  unfold handleReject
  refine ⟨?_, rfl, ?_⟩
  · simp [undoLastChange, hundo]
  · simp [rejectSuggestion, hpend]

/-- Witness for C9 amended at the live-flow state after a native undo. -/
theorem reject_empty_history_silent_noop_witness :
    c9undone.status = UiStatus.pending ∧
    c9undone.doc.undos = [] ∧
    c9undone.store.pendingSuggestion = none ∧
    ((clickReject c9undone).doc = c9undone.doc ∧
      (clickReject c9undone).status = UiStatus.rejected ∧
      (clickReject c9undone).store = c9undone.store) :=
  ⟨rfl, rfl, rfl, reject_empty_history_silent_noop c9undone rfl rfl rfl⟩

/-- C10: when the composing flag is up or the submitted input trims to the
empty string, `handleSendMessage` is a complete no-op — the returned state
equals the input state, so no user message is appended, no LLM request is
dispatched (the request counter is unchanged) and no document, store or
suggestion state changes. -/
theorem send_guard_noop (now : Nat) (input : List Char) (r : String) (s : AppState)
    (h : jsTrim input = [] ∨ s.store.isClaudeTyping = true) :
    handleSendMessage now input r s = s := by
  unfold handleSendMessage
  rw [if_pos h]

/-- Witness for C10: whitespace-only input with the flag down, and
non-blank input with the flag up. -/
theorem send_guard_noop_witness :
    (jsTrim "  ".data = [] ∨ c10st.store.isClaudeTyping = true) ∧
    handleSendMessage 3 "  ".data "resp" c10st = c10st ∧
    (jsTrim "hi".data = [] ∨ c10stT.store.isClaudeTyping = true) ∧
    handleSendMessage 3 "hi".data "resp" c10stT = c10stT :=
  ⟨Or.inl rfl, send_guard_noop 3 "  ".data "resp" c10st (Or.inl rfl),
    Or.inr rfl, send_guard_noop 3 "hi".data "resp" c10stT (Or.inr rfl)⟩

end SowEditor
